import Mathlib

set_option maxRecDepth 100000

/-!
Verification development for the retrieval core of the cssi-claude-skills
repository: offset-mode pagination (`query_iterative` in
`dimensions_helper.py`), cursor-mode pagination (`fetch_all_with_cursor` in
`openalex_helper.py`), dynamic schema validation (`validate_facet`,
`validate_group_by_field`), per-column type reconciliation
(`clean_for_parquet`), filename generation (`generate_filename`) and the
search wrappers built on top of them.  The Python helpers are embedded as
executable Lean functions; abstract network effects (page fetches, schema
discovery calls) are passed in as explicit function arguments returning
`Except`, and the pagination loops take a fuel argument bounding the number
of iterations (the Python loops always terminate, so every run is the value
of the loop at any sufficiently large fuel).
-/

/-- Python truthiness of the optional `max_results` argument: `None` and `0`
are both falsy (`if max_results:`). -/
def optTruthy : Option Nat → Bool
  | none => false
  | some n => n != 0

/-- One offset-mode API response: the record batch plus
`result.count_total or 0`. -/
structure OPage (α : Type) where
  records : List α
  countTotal : Nat

/-- Loop state of `query_iterative`: accumulated records, current skip,
the total count fixed by the first page, the number of page requests
issued so far, and the record count of each non-empty page in order. -/
structure OffState (α : Type) where
  allResults : List α
  skip : Nat
  totalCount : Option Nat
  requests : Nat
  pageSizes : List Nat

/-- The effective total target: once `total_count` is set it is kept;
on the first page it becomes `count_total`, lowered to `max_results`
when `max_results` is truthy (`total_count = min(total_count, max_results)`). -/
def effTarget (mr : Option Nat) (stored : Option Nat) (count : Nat) : Nat :=
  match stored with
  | some t => t
  | none => if optTruthy mr then min count (mr.getD 0) else count

/-- One iteration of the `while True` loop of `query_iterative`
(dimensions_helper.py lines 583-619).  Returns the updated state and a
flag that is `true` exactly when the loop continues to the next page. -/
def offsetStep (fetch : Nat → Nat → Except String (OPage α)) (mr : Option Nat)
    (bs : Nat) (s : OffState α) : OffState α × Bool :=
  match fetch bs s.skip with
  | .error _ => ({ s with requests := s.requests + 1 }, false)
  | .ok page =>
    let tc := effTarget mr s.totalCount page.countTotal
    if page.records.isEmpty then
      ({ s with totalCount := some tc, requests := s.requests + 1 }, false)
    else
      let all := s.allResults ++ page.records
      let s2 : OffState α :=
        ⟨all, s.skip + bs, some tc, s.requests + 1, s.pageSizes ++ [page.records.length]⟩
      if tc ≤ all.length then (s2, false)
      else if optTruthy mr ∧ mr.getD 0 ≤ all.length then (s2, false)
      else if page.records.length < bs then (s2, false)
      else (s2, true)

/-- The pagination loop of `query_iterative`, driven by fuel. -/
def offsetLoop (fetch : Nat → Nat → Except String (OPage α)) (mr : Option Nat)
    (bs : Nat) : Nat → OffState α → OffState α
  | 0, s => s
  | fuel + 1, s =>
    match offsetStep fetch mr bs s with
    | (s2, true) => offsetLoop fetch mr bs fuel s2
    | (s2, false) => s2

/-- The mapping returned by `query_iterative`. -/
structure QueryResult (α : Type) where
  total : Option Nat
  retrieved : Nat
  data : List α
  requests : Nat
  pageSizes : List Nat

/-- `query_iterative(dsl_query, max_results, batch_size)`
(dimensions_helper.py lines 530-663): caps the batch size at the 1000-record
API limit, runs the offset pagination loop from skip 0, and returns
`{'total': total_count, 'retrieved': len(all_results), 'data': all_results}`. -/
def query_iterative (fetch : Nat → Nat → Except String (OPage α))
    (mr : Option Nat) (bs0 : Nat) (fuel : Nat) : QueryResult α :=
  let bs := min bs0 1000
  let s := offsetLoop fetch mr bs fuel ⟨[], 0, none, 0, []⟩
  ⟨s.totalCount, s.allResults.length, s.allResults, s.requests, s.pageSizes⟩

/-- Python truthiness of `meta.get('next_cursor')`: absent (`None`) and the
empty string are both falsy (`if not next_cursor: break`). -/
def cursorTruthy : Option String → Bool
  | none => false
  | some s => !s.isEmpty

/-- One cursor-mode API response: the result batch, `meta['count']`,
and `meta.get('next_cursor')`. -/
structure CPage (α : Type) where
  results : List α
  count : Nat
  nextCursor : Option String

/-- Loop state of `fetch_all_with_cursor`. -/
structure CurState (α : Type) where
  allResults : List α
  cursor : String
  totalCount : Option Nat
  requests : Nat

/-- One iteration of the `while True` loop of `fetch_all_with_cursor`
(openalex_helper.py lines 344-373).  Returns the updated state and a flag
that is `true` exactly when the loop continues with the next cursor. -/
def cursorStep (fetch : String → Except String (CPage α)) (mr : Option Nat)
    (s : CurState α) : CurState α × Bool :=
  match fetch s.cursor with
  | .error _ => ({ s with requests := s.requests + 1 }, false)
  | .ok page =>
    let tc := effTarget mr s.totalCount page.count
    if page.results.isEmpty then
      ({ s with totalCount := some tc, requests := s.requests + 1 }, false)
    else
      let all := s.allResults ++ page.results
      if tc ≤ all.length then
        (⟨all, s.cursor, some tc, s.requests + 1⟩, false)
      else if cursorTruthy page.nextCursor then
        (⟨all, page.nextCursor.getD "", some tc, s.requests + 1⟩, true)
      else
        (⟨all, s.cursor, some tc, s.requests + 1⟩, false)

/-- The pagination loop of `fetch_all_with_cursor`, driven by fuel. -/
def cursorLoop (fetch : String → Except String (CPage α)) (mr : Option Nat) :
    Nat → CurState α → CurState α
  | 0, s => s
  | fuel + 1, s =>
    match cursorStep fetch mr s with
    | (s2, true) => cursorLoop fetch mr fuel s2
    | (s2, false) => s2

/-- The mapping returned by `fetch_all_with_cursor`. -/
structure FetchResult (α : Type) where
  total : Option Nat
  retrieved : Nat
  data : List α
  requests : Nat

/-- `fetch_all_with_cursor(endpoint, params, max_results)`
(openalex_helper.py lines 324-379): starts from the sentinel cursor `*`
and returns `{'total': total_count, 'retrieved': len(all_results),
'data': all_results}`. -/
def fetch_all_with_cursor (fetch : String → Except String (CPage α))
    (mr : Option Nat) (fuel : Nat) : FetchResult α :=
  let s := cursorLoop fetch mr fuel ⟨[], "*", none, 0⟩
  ⟨s.totalCount, s.allResults.length, s.allResults, s.requests⟩

/-- Lookup in an association list keyed by source / entity-type name,
modelling membership in the module-level `_valid_fields_cache` dicts. -/
def lookupSrc (l : List (String × List String)) (s : String) : Option (List String) :=
  match l with
  | [] => none
  | (k, v) :: rest => if k = s then some v else lookupSrc rest s

/-- The three field sets a `describe source` response yields. -/
structure DimMeta where
  facets : List String
  filters : List String
  metrics : List String

/-- The dimensions `_valid_fields_cache`: per source, the facet, filter
and metric field names. -/
structure DimCache where
  facets : List (String × List String)
  filters : List (String × List String)
  metrics : List (String × List String)

/-- The cache at process start. -/
def emptyDimCache : DimCache := ⟨[], [], []⟩

/-- `_fetch_source_metadata(source)` (dimensions_helper.py lines 226-266):
returns unchanged if the source is already cached; otherwise issues one
discovery call (`describe source ...`), counting it in `calls`; on success
all three sets are stored, on failure only a warning is logged and the
cache is left unchanged. -/
def fetch_source_metadata (discover : String → Except String DimMeta)
    (source : String) (c : DimCache) (calls : Nat) : DimCache × Nat :=
  if (lookupSrc c.facets source).isSome then (c, calls)
  else
    match discover source with
    | .ok m =>
      (⟨(source, m.facets) :: c.facets, (source, m.filters) :: c.filters,
        (source, m.metrics) :: c.metrics⟩, calls + 1)
    | .error _ => (c, calls + 1)

/-- `_fetch_valid_group_by_fields(entity_type)` (openalex_helper.py lines
40-70): a cache hit returns the stored set without a network call;
otherwise one probe request is issued (counted in `calls`); a parsed
error payload is cached and returned, any failure returns the empty set
without caching. -/
def fetch_valid_group_by_fields (discover : String → Except String (List String))
    (entity : String) (cache : List (String × List String)) (calls : Nat) :
    List String × List (String × List String) × Nat :=
  match lookupSrc cache entity with
  | some fields => (fields, cache, calls)
  | none =>
    match discover entity with
    | .ok fields => (fields, (entity, fields) :: cache, calls + 1)
    | .error _ => ([], cache, calls + 1)

/-- Does `needle` start `hay`? (helper for Python substring `in`). -/
def startsWithL : List Char → List Char → Bool
  | [], _ => true
  | _ :: _, [] => false
  | a :: as, b :: bs => a == b && startsWithL as bs

/-- Does `n` occur as a contiguous run inside the second list? -/
def subListOf (n : List Char) : List Char → Bool
  | [] => startsWithL n []
  | c :: t => startsWithL n (c :: t) || subListOf n t

/-- Python substring containment `needle in hay`. -/
def containsStr (needle hay : String) : Bool :=
  subListOf needle.data hay.data

/-- Insertion of a string into a sorted list (helper for Python `sorted`). -/
def insertStr (x : String) : List String → List String
  | [] => [x]
  | y :: ys => if x ≤ y then x :: y :: ys else y :: insertStr x ys

/-- Python `sorted` on a collection of strings (insertion sort). -/
def sortStrings : List String → List String
  | [] => []
  | x :: xs => insertStr x (sortStrings xs)

/-- The characters before the first occurrence of `c` (all of them when
`c` does not occur): the first component of a Python `split`. -/
def takeUntilChar (c : Char) : List Char → List Char
  | [] => []
  | x :: xs => if x = c then [] else x :: takeUntilChar c xs

/-- `facet.split('_')[0]`: the prefix token of a facet name. -/
def facetPrefixTok (facet : String) : String :=
  String.mk (takeUntilChar '_' facet.data)

/-- `[f for f in valid_facets if facet.split('_')[0] in f][:5]`
(dimensions_helper.py line 283). -/
def facetSuggestions (facet : String) (valid : List String) : List String :=
  (valid.filter (fun f => containsStr (facetPrefixTok facet) f)).take 5

/-- The optional `Similar valid facets: ...` line of the rejection message. -/
def facetSuggestLine (facet : String) (valid : List String) : String :=
  let suggestions := facetSuggestions facet valid
  if suggestions.isEmpty then ""
  else "Similar valid facets: " ++ String.intercalate ", " suggestions ++ "\n"

/-- The `ValueError` message of `validate_facet`
(dimensions_helper.py lines 285-289). -/
def facetErrorMsg (source facet : String) (valid : List String) : String :=
  "Invalid facet '" ++ facet ++ "' for " ++ source ++ ".\n"
    ++ facetSuggestLine facet valid
    ++ "Valid facets: " ++ String.intercalate ", " ((sortStrings valid).take 15)
    ++ "...\n"
    ++ "Use 'describe " ++ source ++ "' to see all available facets."

/-- `validate_facet(source, facet)` against a cached valid-facet set
(dimensions_helper.py lines 269-292): an empty set is permissive, a member
passes, anything else raises with `facetErrorMsg`. -/
def validate_facet (source facet : String) (valid : List String) :
    Except String Unit :=
  if valid.isEmpty then .ok ()
  else if valid.contains facet then .ok ()
  else .error (facetErrorMsg source facet valid)

/-- `group_field.split('.')[0]`: the prefix token of a group_by field. -/
def groupFieldBase (gf : String) : String :=
  String.mk (takeUntilChar '.' gf.data)

/-- `[f for f in valid_fields if field_base in f][:5]`
(openalex_helper.py line 119). -/
def groupBySuggestions (gf : String) (valid : List String) : List String :=
  (valid.filter (fun f => containsStr (groupFieldBase gf) f)).take 5

/-- The optional `Similar valid fields: ...` line of the rejection message. -/
def groupBySuggestLine (gf : String) (valid : List String) : String :=
  let suggestions := groupBySuggestions gf valid
  if suggestions.isEmpty then ""
  else "Similar valid fields: " ++ String.intercalate ", " suggestions ++ "\n"

/-- The `ValueError` message of `validate_group_by_field`
(openalex_helper.py lines 121-124): it ends with a documentation URL and,
unlike the dimensions message, contains no list of the valid fields. -/
def groupByErrorMsg (entity gf : String) (valid : List String) : String :=
  "Invalid group_by field '" ++ gf ++ "' for " ++ entity ++ ".\n"
    ++ groupBySuggestLine gf valid
    ++ "See https://docs.openalex.org/how-to-use-the-api/get-groups-of-entities for all valid fields."

/-- `validate_group_by_field(entity_type, group_field)` against a cached
valid-field set (openalex_helper.py lines 105-125). -/
def validate_group_by_field (entity gf : String) (valid : List String) :
    Except String Unit :=
  if valid.isEmpty then .ok ()
  else if valid.contains gf then .ok ()
  else .error (groupByErrorMsg entity gf valid)

/-- Extract the text of a raised `ValueError`, the empty string if none. -/
def errText : Except String Unit → String
  | .error m => m
  | .ok _ => ""

/-- Did validation raise? -/
def isErrE : Except String Unit → Bool
  | .error _ => true
  | .ok _ => false

/-- A pandas object-column value: null (None/NaN), a string, a number,
a boolean, a list, or a nested mapping. -/
inductive PVal where
  | vnull
  | vstr (s : String)
  | vint (n : Int)
  | vbool (b : Bool)
  | vlist (xs : List PVal)
  | vdict (kvs : List (String × PVal))

/-- Is the value a list? (`isinstance(val, list)`). -/
def isListV : PVal → Bool
  | .vlist _ => true
  | _ => false

/-- Is the value a mapping? (`isinstance(val, dict)`). -/
def isDictV : PVal → Bool
  | .vdict _ => true
  | _ => false

/-- Is the value a truthy list? (`isinstance(val, list) and val`). -/
def isNonemptyList : PVal → Bool
  | .vlist (_ :: _) => true
  | _ => false

/-- Is the value a truthy mapping? (`isinstance(val, dict) and val`). -/
def isNonemptyDict : PVal → Bool
  | .vdict (_ :: _) => true
  | _ => false

/-- Is the value the empty string? (`val == ''`). -/
def isEmptyStr : PVal → Bool
  | .vstr s => s.isEmpty
  | _ => false

/-- Is the value null? -/
def isNullV : PVal → Bool
  | .vnull => true
  | _ => false

/-- `df[col].dropna()`: the non-null values of a column. -/
def nonNullVals (col : List PVal) : List PVal :=
  col.filter (fun v => !isNullV v)

/-- The per-shape tallies of `clean_for_parquet`
(dimensions_helper.py lines 390-397): counts of truthy lists, truthy
mappings, and non-empty-string scalars; empty strings and empty
containers count as absence. -/
def shapeCounts : List PVal → Nat × Nat × Nat
  | [] => (0, 0, 0)
  | v :: rest =>
    let c := shapeCounts rest
    if isNonemptyList v then (c.1 + 1, c.2.1, c.2.2)
    else if isNonemptyDict v then (c.1, c.2.1 + 1, c.2.2)
    else if isListV v || isDictV v then c
    else if isEmptyStr v then c
    else (c.1, c.2.1, c.2.2 + 1)

/-- The per-column dominant shape. -/
inductive PShape where
  | list
  | dict
  | primitive
deriving DecidableEq

/-- `max(type_counts, key=type_counts.get)`: iterating the keys in
insertion order `list`, `dict`, `primitive`, a later key wins only with a
strictly larger count, so exact ties resolve to the earliest key. -/
def maxShape (l d p : Nat) : PShape :=
  if d ≤ l ∧ p ≤ l then .list
  else if p ≤ d then .dict
  else .primitive

/-- The count the winning shape achieved. -/
def shapeCountOf (l d p : Nat) : PShape → Nat
  | .list => l
  | .dict => d
  | .primitive => p

/-- Dominant-shape selection (dimensions_helper.py lines 399-404):
the plurality winner of `maxShape`, overridden to `primitive` when even
the winner has count 0. -/
def dominantShape (l d p : Nat) : PShape :=
  let m := maxShape l d p
  if shapeCountOf l d p m = 0 then .primitive else m

mutual

/-- `clean_nested_for_parquet(obj)` (dimensions_helper.py lines 358-371):
recursively turns empty strings into nulls inside nested values. -/
def cleanNested : PVal → PVal
  | .vnull => .vnull
  | .vstr s => if s.isEmpty then .vnull else .vstr s
  | .vint n => .vint n
  | .vbool b => .vbool b
  | .vlist xs => .vlist (cleanNestedList xs)
  | .vdict kvs => .vdict (cleanNestedKVs kvs)

/-- `clean_nested_for_parquet` mapped over a list value. -/
def cleanNestedList : List PVal → List PVal
  | [] => []
  | x :: xs => cleanNested x :: cleanNestedList xs

/-- `clean_nested_for_parquet` mapped over the values of a mapping. -/
def cleanNestedKVs : List (String × PVal) → List (String × PVal)
  | [] => []
  | (k, v) :: xs => (k, cleanNested v) :: cleanNestedKVs xs

end

/-- `clean_value(val)` for a fixed dominant shape
(dimensions_helper.py lines 407-425): a value of the dominant shape is
kept (after nested cleaning), anything else becomes null; under the
`primitive` dominant, containers and empty strings become null. -/
def cleanValue (dom : PShape) (v : PVal) : PVal :=
  match v, dom with
  | .vnull, _ => .vnull
  | v, .list => if isNonemptyList v then cleanNested v else .vnull
  | v, .dict => if isNonemptyDict v then cleanNested v else .vnull
  | v, .primitive =>
    if isListV v || isDictV v then .vnull
    else if isEmptyStr v then .vnull
    else v

/-- The body of the per-column loop of `clean_for_parquet`
(dimensions_helper.py lines 374-430) for one object-dtype column:
columns with no non-null value pass through unchanged, otherwise every
value is rewritten by the cleaner of the dominant shape. -/
def clean_for_parquet_col (col : List PVal) : List PVal :=
  let nn := nonNullVals col
  if nn.isEmpty then col
  else
    let c := shapeCounts nn
    col.map (cleanValue (dominantShape c.1 c.2.1 c.2.2))

/-- The dominant shape `clean_for_parquet` assigns to a column. -/
def domOf (col : List PVal) : PShape :=
  let c := shapeCounts (nonNullVals col)
  dominantShape c.1 c.2.1 c.2.2

/-- Does the raw value match the dominant shape as the counting phase
understands it (truthy list / truthy mapping / non-container,
non-empty-string scalar)? -/
def rawShapeIs : PShape → PVal → Bool
  | .list, v => isNonemptyList v
  | .dict, v => isNonemptyDict v
  | .primitive, v => !isListV v && !isDictV v && !isEmptyStr v

/-- Does a cleaned value conform to the dominant shape? -/
def shapeMatchV : PShape → PVal → Prop
  | .list, v => ∃ xs, v = .vlist xs
  | .dict, v => ∃ kvs, v = .vdict kvs
  | .primitive, v => isListV v = false ∧ isDictV v = false ∧ isEmptyStr v = false

/-- What `clean_for_parquet` guarantees for an object column holding at
least one non-null value: plurality selection of the dominant shape with
ties resolved in the fixed order list, dict, primitive (never in favor of
the scalar shape unless every count is zero), and an output of the same
length in which empty strings and every value not matching the dominant
shape have become null while all surviving values conform to it. -/
def CleanColSpec (col : List PVal) : Prop :=
  let c := shapeCounts (nonNullVals col)
  let dom := domOf col
  let out := clean_for_parquet_col col
  ((c.2.1 < c.1 ∧ c.2.2 < c.1) → dom = .list)
  ∧ ((c.1 < c.2.1 ∧ c.2.2 < c.2.1) → dom = .dict)
  ∧ ((c.1 < c.2.2 ∧ c.2.1 < c.2.2) → dom = .primitive)
  ∧ ((0 < c.1 ∧ c.2.1 ≤ c.1 ∧ c.2.2 ≤ c.1) → dom = .list)
  ∧ ((c.1 = 0 ∧ c.2.1 = 0 ∧ c.2.2 = 0) → dom = .primitive)
  ∧ out.length = col.length
  ∧ (∀ v ∈ out, v = .vnull ∨ shapeMatchV dom v)
  ∧ (∀ i (h : i < col.length) (h2 : i < out.length),
      rawShapeIs dom (col.get ⟨i, h⟩) = false → out.get ⟨i, h2⟩ = .vnull)

/-- `clean_terms` in `generate_filename` (both helpers): each of the
first 30 characters of the query term is kept if alphanumeric and
replaced by an underscore otherwise. -/
def sanitizeTerms (q : String) : String :=
  String.mk ((q.data.take 30).map (fun c => if c.isAlphanum then c else '_'))

/-- What the spec's words describe instead: keep only the alphanumeric
characters of the first 30 (dropping the rest). -/
def specSanitize (q : String) : String :=
  String.mk ((q.data.take 30).filter Char.isAlphanum)

/-- `generate_filename(prefix, query_terms)` with the timestamp passed in
(dimensions_helper.py lines 348-355, openalex_helper.py lines 197-204):
`None` and the empty string omit the middle component. -/
def generate_filename (p : String) (qt : Option String) (ts : String) : String :=
  match qt with
  | none => p ++ "_" ++ ts
  | some q => if q.isEmpty then p ++ "_" ++ ts
              else p ++ "_" ++ sanitizeTerms q ++ "_" ++ ts

/-- The slice of a search result a caller sees: total, the reported
retrieved count, and the embedded entity list. -/
structure SearchOut (α : Type) where
  total : Option Nat
  returned : Nat
  entities : List α

/-- The cursor-pagination branch of `search_works`
(openalex_helper.py lines 411-428): `'returned': result['retrieved']`,
`'works': result['data'][:20]`. -/
def search_works_cursor_path (fetch : String → Except String (CPage α))
    (mr : Option Nat) (fuel : Nat) : SearchOut α :=
  let r := fetch_all_with_cursor fetch mr fuel
  ⟨r.total, r.retrieved, r.data.take 20⟩

/-- The iterative branch of `search_publications`
(dimensions_helper.py lines 679-687): `'returned': result['retrieved']`,
`'publications': result['data'][:20]`. -/
def search_publications_iter_path (fetch : Nat → Nat → Except String (OPage α))
    (mr : Option Nat) (bs0 fuel : Nat) : SearchOut α :=
  let r := query_iterative fetch mr bs0 fuel
  ⟨r.total, r.retrieved, r.data.take 20⟩

/-- An offset-mode API holding 10 records that honors the limit keyword:
every page request returns the 2 records at the requested offset. -/
def apiTwoPerPage : Nat → Nat → Except String (OPage Nat) :=
  fun _ skip => .ok ⟨[skip, skip + 1], 10⟩

/-- An offset-mode API with 5000 available records that honors the
1000-record limit of every page request. -/
def apiFiveThousand : Nat → Nat → Except String (OPage Unit) :=
  fun _ skip => .ok ⟨List.replicate (min 1000 (5000 - skip)) (), 5000⟩

/-- An offset-mode API with exactly 2500 available records. -/
def apiTwentyFiveHundred : Nat → Nat → Except String (OPage Unit) :=
  fun _ skip => .ok ⟨List.replicate (min 1000 (2500 - skip)) (), 2500⟩

/-- An offset-mode API with 3 records, all on the first page. -/
def apiThreeRecords : Nat → Nat → Except String (OPage Nat) :=
  fun _ _ => .ok ⟨[1, 2, 3], 3⟩

/-- An offset-mode API that serves two full pages and fails on the third
page request (a mid-pagination network error). -/
def apiFailsAtPage3 : Nat → Nat → Except String (OPage Nat) :=
  fun _ skip =>
    if skip = 0 then .ok ⟨[1, 2], 9⟩
    else if skip = 2 then .ok ⟨[3, 4], 9⟩
    else .error "network error"

/-- A cursor-mode API that serves two pages and fails on the third
page request. -/
def curFailsAtPage3 : String → Except String (CPage Nat) :=
  fun c =>
    if c = "*" then .ok ⟨[1, 2], 9, some "c1"⟩
    else if c = "c1" then .ok ⟨[3, 4], 9, some "c2"⟩
    else .error "network error"

/-- An offset-mode API that always fills exactly the requested limit. -/
def apiFullPages : Nat → Nat → Except String (OPage Nat) :=
  fun limit _ => .ok ⟨List.replicate limit 0, 100⟩

/-- A cursor-mode API that always returns a full 200-record page with a
continuation token. -/
def curFullPages : String → Except String (CPage Nat) :=
  fun _ => .ok ⟨List.replicate 200 0, 1000, some "next"⟩

/-- A cursor-mode API whose single page of 25 records carries no
continuation token. -/
def curTwentyFive : String → Except String (CPage Nat) :=
  fun c => if c = "*" then .ok ⟨List.replicate 25 0, 1000, none⟩ else .error "gone"

/-- An offset-mode API with 25 records on the first page. -/
def apiTwentyFive : Nat → Nat → Except String (OPage Nat) :=
  fun _ skip => if skip = 0 then .ok ⟨List.replicate 25 0, 25⟩ else .ok ⟨[], 25⟩

/-- A schema-discovery call that always fails with a network error. -/
def failDiscover : String → Except String DimMeta :=
  fun _ => .error "network error"

/-- A schema-discovery call that succeeds. -/
def okDiscover : String → Except String DimMeta :=
  fun _ => .ok ⟨["year", "research_orgs"], ["year"], ["count"]⟩

/-- An OpenAlex probe request that always fails. -/
def failProbe : String → Except String (List String) :=
  fun _ => .error "network error"

/-- An OpenAlex probe request that succeeds. -/
def okProbe : String → Except String (List String) :=
  fun _ => .ok ["publication_year", "oa_status"]

/-- A column holding one scalar and one list value (an exact tie between
the scalar and list shape counts). -/
def tieCol : List PVal := [.vstr "a", .vlist [.vint 1]]

/-- A column with two list values and one scalar (list plurality). -/
def listMajorityCol : List PVal :=
  [.vstr "x", .vlist [.vint 1], .vlist [.vint 2]]

theorem strData_append (a b : String) : (a ++ b).data = a.data ++ b.data := by
  cases a
  cases b
  rfl

theorem replicate_isEmpty_false (n : Nat) (a : α) (h : 0 < n) :
    (List.replicate n a).isEmpty = false := by
  simp [List.isEmpty_iff, List.replicate_eq_nil_iff]
  omega

theorem length_pos_isEmpty_false (l : List α) (h : 0 < l.length) :
    l.isEmpty = false := by
  cases l with
  | nil => simp at h
  | cons x xs => rfl

theorem offsetStep_error (fetch : Nat → Nat → Except String (OPage α)) (mr : Option Nat)
    (bs : Nat) (s : OffState α) (e : String) (hf : fetch bs s.skip = .error e) :
    offsetStep fetch mr bs s = ({ s with requests := s.requests + 1 }, false) := by
  simp [offsetStep, hf]

theorem offsetStep_empty (fetch : Nat → Nat → Except String (OPage α)) (mr : Option Nat)
    (bs : Nat) (s : OffState α) (recs : List α) (ct : Nat)
    (hf : fetch bs s.skip = .ok ⟨recs, ct⟩) (hemp : recs.isEmpty = true) :
    offsetStep fetch mr bs s =
      ({ s with
          totalCount := some (effTarget mr s.totalCount ct),
          requests := s.requests + 1 }, false) := by
  simp [offsetStep, hf, hemp]

theorem offsetStep_cont (fetch : Nat → Nat → Except String (OPage α)) (mr : Option Nat)
    (bs : Nat) (s : OffState α) (recs : List α) (ct : Nat)
    (hf : fetch bs s.skip = .ok ⟨recs, ct⟩) (hne : recs.isEmpty = false)
    (h1 : s.allResults.length + recs.length < effTarget mr s.totalCount ct)
    (h2 : ¬ (optTruthy mr = true ∧ mr.getD 0 ≤ s.allResults.length + recs.length))
    (h3 : bs ≤ recs.length) :
    offsetStep fetch mr bs s =
      (⟨s.allResults ++ recs, s.skip + bs, some (effTarget mr s.totalCount ct),
        s.requests + 1, s.pageSizes ++ [recs.length]⟩, true) := by
  simp only [offsetStep, hf, hne, Bool.false_eq_true, if_false, List.length_append]
  rw [if_neg (by omega), if_neg (by exact h2), if_neg (by omega)]

theorem offsetStep_stopTarget (fetch : Nat → Nat → Except String (OPage α)) (mr : Option Nat)
    (bs : Nat) (s : OffState α) (recs : List α) (ct : Nat)
    (hf : fetch bs s.skip = .ok ⟨recs, ct⟩) (hne : recs.isEmpty = false)
    (h1 : effTarget mr s.totalCount ct ≤ s.allResults.length + recs.length) :
    offsetStep fetch mr bs s =
      (⟨s.allResults ++ recs, s.skip + bs, some (effTarget mr s.totalCount ct),
        s.requests + 1, s.pageSizes ++ [recs.length]⟩, false) := by
  simp only [offsetStep, hf, hne, Bool.false_eq_true, if_false, List.length_append]
  rw [if_pos (by omega)]

theorem offsetStep_stopAny (fetch : Nat → Nat → Except String (OPage α)) (mr : Option Nat)
    (bs : Nat) (s : OffState α) (recs : List α) (ct : Nat)
    (hf : fetch bs s.skip = .ok ⟨recs, ct⟩) (hne : recs.isEmpty = false)
    (h : effTarget mr s.totalCount ct ≤ s.allResults.length + recs.length
      ∨ (optTruthy mr = true ∧ mr.getD 0 ≤ s.allResults.length + recs.length)
      ∨ recs.length < bs) :
    offsetStep fetch mr bs s =
      (⟨s.allResults ++ recs, s.skip + bs, some (effTarget mr s.totalCount ct),
        s.requests + 1, s.pageSizes ++ [recs.length]⟩, false) := by
  simp only [offsetStep, hf, hne, Bool.false_eq_true, if_false, List.length_append]
  by_cases h1 : effTarget mr s.totalCount ct ≤ s.allResults.length + recs.length
  · rw [if_pos (by omega)]
  · rw [if_neg (by omega)]
    by_cases h2 : optTruthy mr = true ∧ mr.getD 0 ≤ s.allResults.length + recs.length
    · rw [if_pos h2]
    · rw [if_neg h2]
      rcases h with h | h | h
      · omega
      · exact absurd h h2
      · rw [if_pos h]

theorem offsetLoop_cont (fetch : Nat → Nat → Except String (OPage α)) (mr : Option Nat)
    (bs fuel : Nat) (s s2 : OffState α) (h : offsetStep fetch mr bs s = (s2, true)) :
    offsetLoop fetch mr bs (fuel + 1) s = offsetLoop fetch mr bs fuel s2 := by
  simp [offsetLoop, h]

theorem offsetLoop_stop (fetch : Nat → Nat → Except String (OPage α)) (mr : Option Nat)
    (bs fuel : Nat) (s s2 : OffState α) (h : offsetStep fetch mr bs s = (s2, false)) :
    offsetLoop fetch mr bs (fuel + 1) s = s2 := by
  simp [offsetLoop, h]

theorem cursorStep_error (fetch : String → Except String (CPage α)) (mr : Option Nat)
    (s : CurState α) (e : String) (hf : fetch s.cursor = .error e) :
    cursorStep fetch mr s = ({ s with requests := s.requests + 1 }, false) := by
  simp [cursorStep, hf]

theorem cursorStep_empty (fetch : String → Except String (CPage α)) (mr : Option Nat)
    (s : CurState α) (res : List α) (ct : Nat) (nc : Option String)
    (hf : fetch s.cursor = .ok ⟨res, ct, nc⟩) (hemp : res.isEmpty = true) :
    cursorStep fetch mr s =
      ({ s with
          totalCount := some (effTarget mr s.totalCount ct),
          requests := s.requests + 1 }, false) := by
  simp [cursorStep, hf, hemp]

theorem cursorStep_cont (fetch : String → Except String (CPage α)) (mr : Option Nat)
    (s : CurState α) (res : List α) (ct : Nat) (nc : Option String)
    (hf : fetch s.cursor = .ok ⟨res, ct, nc⟩) (hne : res.isEmpty = false)
    (h1 : s.allResults.length + res.length < effTarget mr s.totalCount ct)
    (h2 : cursorTruthy nc = true) :
    cursorStep fetch mr s =
      (⟨s.allResults ++ res, nc.getD "", some (effTarget mr s.totalCount ct),
        s.requests + 1⟩, true) := by
  simp only [cursorStep, hf, hne, Bool.false_eq_true, if_false, List.length_append]
  rw [if_neg (by omega), if_pos h2]

theorem cursorStep_stopTarget (fetch : String → Except String (CPage α)) (mr : Option Nat)
    (s : CurState α) (res : List α) (ct : Nat) (nc : Option String)
    (hf : fetch s.cursor = .ok ⟨res, ct, nc⟩) (hne : res.isEmpty = false)
    (h1 : effTarget mr s.totalCount ct ≤ s.allResults.length + res.length) :
    cursorStep fetch mr s =
      (⟨s.allResults ++ res, s.cursor, some (effTarget mr s.totalCount ct),
        s.requests + 1⟩, false) := by
  simp only [cursorStep, hf, hne, Bool.false_eq_true, if_false, List.length_append]
  rw [if_pos (by omega)]

theorem cursorStep_stopNoCursor (fetch : String → Except String (CPage α)) (mr : Option Nat)
    (s : CurState α) (res : List α) (ct : Nat) (nc : Option String)
    (hf : fetch s.cursor = .ok ⟨res, ct, nc⟩) (hne : res.isEmpty = false)
    (h1 : s.allResults.length + res.length < effTarget mr s.totalCount ct)
    (h2 : cursorTruthy nc = false) :
    cursorStep fetch mr s =
      (⟨s.allResults ++ res, s.cursor, some (effTarget mr s.totalCount ct),
        s.requests + 1⟩, false) := by
  simp only [cursorStep, hf, hne, Bool.false_eq_true, if_false, List.length_append]
  rw [if_neg (by omega), if_neg (by simp [h2])]

theorem cursorLoop_cont (fetch : String → Except String (CPage α)) (mr : Option Nat)
    (fuel : Nat) (s s2 : CurState α) (h : cursorStep fetch mr s = (s2, true)) :
    cursorLoop fetch mr (fuel + 1) s = cursorLoop fetch mr fuel s2 := by
  simp [cursorLoop, h]

theorem cursorLoop_stop (fetch : String → Except String (CPage α)) (mr : Option Nat)
    (fuel : Nat) (s s2 : CurState α) (h : cursorStep fetch mr s = (s2, false)) :
    cursorLoop fetch mr (fuel + 1) s = s2 := by
  simp [cursorLoop, h]

theorem offsetLoop_ceiling_bound (fetch : Nat → Nat → Except String (OPage α)) (m bs : Nat)
    (hm : 0 < m)
    (hfetch : ∀ limit skip page, fetch limit skip = .ok page → page.records.length ≤ limit) :
    ∀ (fuel : Nat) (s : OffState α), s.allResults.length < m →
      (offsetLoop fetch (some m) bs fuel s).allResults.length < m + bs := by
  intro fuel
  induction fuel with
  | zero =>
    intro s h
    simp only [offsetLoop]
    omega
  | succ f ih =>
    intro s h
    cases hf : fetch bs s.skip with
    | error e =>
      rw [offsetLoop_stop _ _ _ _ _ _ (offsetStep_error fetch (some m) bs s e hf)]
      show s.allResults.length < m + bs
      omega
    | ok page =>
      rcases page with ⟨recs, ct⟩
      have hl : recs.length ≤ bs := hfetch bs s.skip ⟨recs, ct⟩ hf
      by_cases hemp : recs.isEmpty
      · rw [offsetLoop_stop _ _ _ _ _ _ (offsetStep_empty fetch (some m) bs s recs ct hf hemp)]
        show s.allResults.length < m + bs
        omega
      · have hemp2 : recs.isEmpty = false := by simpa using hemp
        by_cases h1 : effTarget (some m) s.totalCount ct ≤ s.allResults.length + recs.length
        · rw [offsetLoop_stop _ _ _ _ _ _
            (offsetStep_stopTarget fetch (some m) bs s recs ct hf hemp2 h1)]
          show (s.allResults ++ recs).length < m + bs
          rw [List.length_append]
          omega
        · by_cases h2 : optTruthy (some m) = true ∧
              (some m : Option Nat).getD 0 ≤ s.allResults.length + recs.length
          · rw [offsetLoop_stop _ _ _ _ _ _
              (offsetStep_stopAny fetch (some m) bs s recs ct hf hemp2 (Or.inr (Or.inl h2)))]
            show (s.allResults ++ recs).length < m + bs
            rw [List.length_append]
            omega
          · by_cases h3 : recs.length < bs
            · rw [offsetLoop_stop _ _ _ _ _ _
                (offsetStep_stopAny fetch (some m) bs s recs ct hf hemp2 (Or.inr (Or.inr h3)))]
              show (s.allResults ++ recs).length < m + bs
              rw [List.length_append]
              omega
            · rw [offsetLoop_cont _ _ _ _ _ _
                (offsetStep_cont fetch (some m) bs s recs ct hf hemp2 (by omega) h2 (by omega))]
              apply ih
              show (s.allResults ++ recs).length < m
              rw [List.length_append]
              have ht : optTruthy (some m) = true := by
                simp [optTruthy]
                omega
              simp only [ht, true_and, Option.getD_some] at h2
              omega

theorem cursorLoop_ceiling_bound (fetch : String → Except String (CPage α)) (m : Nat)
    (hm : 0 < m)
    (hfetch : ∀ cur page, fetch cur = .ok page → page.results.length ≤ 200) :
    ∀ (fuel : Nat) (s : CurState α), s.allResults.length < m →
      (∀ t, s.totalCount = some t → t ≤ m) →
      (cursorLoop fetch (some m) fuel s).allResults.length < m + 200 := by
  intro fuel
  induction fuel with
  | zero =>
    intro s h htc
    simp only [cursorLoop]
    omega
  | succ f ih =>
    intro s h htc
    cases hf : fetch s.cursor with
    | error e =>
      rw [cursorLoop_stop _ _ _ _ _ (cursorStep_error fetch (some m) s e hf)]
      show s.allResults.length < m + 200
      omega
    | ok page =>
      rcases page with ⟨res, ct, nc⟩
      have hl : res.length ≤ 200 := by
        simpa using hfetch s.cursor ⟨res, ct, nc⟩ hf
      have heff : effTarget (some m) s.totalCount ct ≤ m := by
        cases hstc : s.totalCount with
        | none =>
          simp only [effTarget, hstc]
          have hot : optTruthy (some m) = true := by
            simp [optTruthy]
            omega
          rw [if_pos hot]
          simp [Nat.min_le_right]
        | some t =>
          simp only [effTarget, hstc]
          exact htc t hstc
      by_cases hemp : res.isEmpty
      · rw [cursorLoop_stop _ _ _ _ _ (cursorStep_empty fetch (some m) s res ct nc hf hemp)]
        show s.allResults.length < m + 200
        omega
      · have hemp2 : res.isEmpty = false := by simpa using hemp
        by_cases h1 : effTarget (some m) s.totalCount ct ≤ s.allResults.length + res.length
        · rw [cursorLoop_stop _ _ _ _ _
            (cursorStep_stopTarget fetch (some m) s res ct nc hf hemp2 h1)]
          show (s.allResults ++ res).length < m + 200
          rw [List.length_append]
          omega
        · by_cases h2 : cursorTruthy nc = true
          · rw [cursorLoop_cont _ _ _ _ _
              (cursorStep_cont fetch (some m) s res ct nc hf hemp2 (by omega) h2)]
            apply ih
            · show (s.allResults ++ res).length < m
              rw [List.length_append]
              omega
            · intro t ht
              have : some (effTarget (some m) s.totalCount ct) = some t := ht
              have := Option.some.inj this
              omega
          · have h2f : cursorTruthy nc = false := by
              cases hcc : cursorTruthy nc
              · rfl
              · exact absurd hcc h2
            rw [cursorLoop_stop _ _ _ _ _
              (cursorStep_stopNoCursor fetch (some m) s res ct nc hf hemp2 (by omega) h2f)]
            show (s.allResults ++ res).length < m + 200
            rw [List.length_append]
            omega

/-- C1, counterexample.  Offset mode with a ceiling of 3 and batch size 2
against an API holding 10 records: the run stops only after the page that
crosses the target, retrieving 4 records, so `retrieved <= max_results`
fails (`query_iterative` never truncates the final batch). -/
theorem C1_cex :
    (query_iterative apiTwoPerPage (some 3) 2 100).retrieved = 4
    ∧ ¬ (query_iterative apiTwoPerPage (some 3) 2 100).retrieved ≤ 3 := by
  decide

/-- C1, amended.  For every completed retrieval operation (offset or cursor
mode), `retrieved == len(data)` holds exactly as claimed; the ceiling bound
however is only `retrieved < max_results + pageSize` (pageSize being the
capped batch size in offset mode and 200 in cursor mode): the engine stops
at the first page that reaches the target but keeps that whole page, so it
can overshoot a positive ceiling by up to one page when the API honors the
per-request limit. -/
theorem C1_thm :
    (∀ (α : Type) (fetch : Nat → Nat → Except String (OPage α))
       (mr : Option Nat) (bs0 fuel : Nat),
      (query_iterative fetch mr bs0 fuel).retrieved
        = (query_iterative fetch mr bs0 fuel).data.length)
    ∧ (∀ (α : Type) (fetch : String → Except String (CPage α))
       (mr : Option Nat) (fuel : Nat),
      (fetch_all_with_cursor fetch mr fuel).retrieved
        = (fetch_all_with_cursor fetch mr fuel).data.length)
    ∧ (∀ (α : Type) (fetch : Nat → Nat → Except String (OPage α))
       (m bs0 fuel : Nat),
      0 < m →
      (∀ limit skip page, fetch limit skip = .ok page → page.records.length ≤ limit) →
      (query_iterative fetch (some m) bs0 fuel).retrieved < m + min bs0 1000)
    ∧ (∀ (α : Type) (fetch : String → Except String (CPage α)) (m fuel : Nat),
      0 < m →
      (∀ cur page, fetch cur = .ok page → page.results.length ≤ 200) →
      (fetch_all_with_cursor fetch (some m) fuel).retrieved < m + 200) := by
  refine ⟨fun α fetch mr bs0 fuel => rfl, fun α fetch mr fuel => rfl, ?_, ?_⟩
  · intro α fetch m bs0 fuel hm hfetch
    exact offsetLoop_ceiling_bound fetch m (min bs0 1000) hm hfetch fuel
      ⟨[], 0, none, 0, []⟩ (by simpa using hm)
  · intro α fetch m fuel hm hfetch
    exact cursorLoop_ceiling_bound fetch m hm hfetch fuel
      ⟨[], "*", none, 0⟩ (by simpa using hm) (by intro t ht; cases ht)

/-- C1, witness.  The amended bounds instantiated: a ceiling of 5 with
batch size 2 against an API serving full pages gives 6 retrieved records,
within `5 + 2`; a ceiling of 300 against 200-record cursor pages gives
400 records, within `300 + 200`. -/
theorem C1_wit :
    (0 < 5 ∧ (query_iterative apiFullPages (some 5) 2 100).retrieved < 5 + min 2 1000)
    ∧ (0 < 300 ∧ (fetch_all_with_cursor curFullPages (some 300) 100).retrieved < 300 + 200) :=
  ⟨⟨by decide,
    C1_thm.2.2.1 Nat apiFullPages 5 2 100 (by decide)
      (by
        intro limit skip page h
        have : (OPage.mk (List.replicate limit (0 : Nat)) 100) = page := by
          simpa [apiFullPages] using h
        rw [← this]
        simp)⟩,
   ⟨by decide,
    C1_thm.2.2.2 Nat curFullPages 300 100 (by decide)
      (by
        intro cur page h
        have : (CPage.mk (List.replicate 200 (0 : Nat)) 1000 (some "next")) = page := by
          simpa [curFullPages] using h
        rw [← this]
        simp)⟩⟩

theorem apiFiveThousand_step1 :
    offsetStep apiFiveThousand (some 2500) 1000 ⟨[], 0, none, 0, []⟩
      = (⟨List.replicate 1000 (), 1000, some 2500, 1, [1000]⟩, true) := by
  rw [offsetStep_cont apiFiveThousand (some 2500) 1000 ⟨[], 0, none, 0, []⟩
    (List.replicate 1000 ()) 5000 (by norm_num [apiFiveThousand])
    (replicate_isEmpty_false 1000 () (by norm_num))
    (by norm_num [effTarget, optTruthy]) (by norm_num [optTruthy]) (by norm_num)]
  norm_num [effTarget, optTruthy]

theorem apiFiveThousand_step2 :
    offsetStep apiFiveThousand (some 2500) 1000
      ⟨List.replicate 1000 (), 1000, some 2500, 1, [1000]⟩
      = (⟨List.replicate 1000 () ++ List.replicate 1000 (), 2000, some 2500, 2,
          [1000, 1000]⟩, true) := by
  rw [offsetStep_cont apiFiveThousand (some 2500) 1000 _
    (List.replicate 1000 ()) 5000 (by norm_num [apiFiveThousand])
    (replicate_isEmpty_false 1000 () (by norm_num))
    (by norm_num [effTarget]) (by norm_num [optTruthy]) (by norm_num)]
  norm_num [effTarget]

theorem apiFiveThousand_step3 :
    offsetStep apiFiveThousand (some 2500) 1000
      ⟨List.replicate 1000 () ++ List.replicate 1000 (), 2000, some 2500, 2, [1000, 1000]⟩
      = (⟨(List.replicate 1000 () ++ List.replicate 1000 ()) ++ List.replicate 1000 (),
          3000, some 2500, 3, [1000, 1000, 1000]⟩, false) := by
  rw [offsetStep_stopTarget apiFiveThousand (some 2500) 1000 _
    (List.replicate 1000 ()) 5000 (by norm_num [apiFiveThousand])
    (replicate_isEmpty_false 1000 () (by norm_num))
    (by norm_num [effTarget])]
  norm_num [effTarget]

theorem apiFiveThousand_run :
    query_iterative apiFiveThousand (some 2500) 1000 10 =
      ⟨some 2500, 3000,
       (List.replicate 1000 () ++ List.replicate 1000 ()) ++ List.replicate 1000 (),
       3, [1000, 1000, 1000]⟩ := by
  have hloop : ∀ f : Nat,
      offsetLoop apiFiveThousand (some 2500) 1000 (f + 3) ⟨[], 0, none, 0, []⟩
        = ⟨(List.replicate 1000 () ++ List.replicate 1000 ()) ++ List.replicate 1000 (),
           3000, some 2500, 3, [1000, 1000, 1000]⟩ := by
    intro f
    rw [show f + 3 = (f + 2) + 1 by omega, offsetLoop_cont _ _ _ _ _ _ apiFiveThousand_step1,
        show f + 2 = (f + 1) + 1 by omega, offsetLoop_cont _ _ _ _ _ _ apiFiveThousand_step2,
        offsetLoop_stop _ _ _ _ _ _ apiFiveThousand_step3]
  have h10 := hloop 7
  rw [show (7 : Nat) + 3 = 10 from rfl] at h10
  rw [query_iterative, show min 1000 1000 = 1000 from rfl, h10]
  norm_num

theorem apiTwentyFiveHundred_step1 :
    offsetStep apiTwentyFiveHundred (some 2500) 1000 ⟨[], 0, none, 0, []⟩
      = (⟨List.replicate 1000 (), 1000, some 2500, 1, [1000]⟩, true) := by
  rw [offsetStep_cont apiTwentyFiveHundred (some 2500) 1000 ⟨[], 0, none, 0, []⟩
    (List.replicate 1000 ()) 2500 (by norm_num [apiTwentyFiveHundred])
    (replicate_isEmpty_false 1000 () (by norm_num))
    (by norm_num [effTarget, optTruthy]) (by norm_num [optTruthy]) (by norm_num)]
  norm_num [effTarget, optTruthy]

theorem apiTwentyFiveHundred_step2 :
    offsetStep apiTwentyFiveHundred (some 2500) 1000
      ⟨List.replicate 1000 (), 1000, some 2500, 1, [1000]⟩
      = (⟨List.replicate 1000 () ++ List.replicate 1000 (), 2000, some 2500, 2,
          [1000, 1000]⟩, true) := by
  rw [offsetStep_cont apiTwentyFiveHundred (some 2500) 1000 _
    (List.replicate 1000 ()) 2500 (by norm_num [apiTwentyFiveHundred])
    (replicate_isEmpty_false 1000 () (by norm_num))
    (by norm_num [effTarget]) (by norm_num [optTruthy]) (by norm_num)]
  norm_num [effTarget]

theorem apiTwentyFiveHundred_step3 :
    offsetStep apiTwentyFiveHundred (some 2500) 1000
      ⟨List.replicate 1000 () ++ List.replicate 1000 (), 2000, some 2500, 2, [1000, 1000]⟩
      = (⟨(List.replicate 1000 () ++ List.replicate 1000 ()) ++ List.replicate 500 (),
          3000, some 2500, 3, [1000, 1000, 500]⟩, false) := by
  rw [offsetStep_stopTarget apiTwentyFiveHundred (some 2500) 1000 _
    (List.replicate 500 ()) 2500 (by norm_num [apiTwentyFiveHundred])
    (replicate_isEmpty_false 500 () (by norm_num))
    (by norm_num [effTarget])]
  norm_num [effTarget]

theorem apiTwentyFiveHundred_run :
    query_iterative apiTwentyFiveHundred (some 2500) 1000 10 =
      ⟨some 2500, 2500,
       (List.replicate 1000 () ++ List.replicate 1000 ()) ++ List.replicate 500 (),
       3, [1000, 1000, 500]⟩ := by
  have hloop : ∀ f : Nat,
      offsetLoop apiTwentyFiveHundred (some 2500) 1000 (f + 3) ⟨[], 0, none, 0, []⟩
        = ⟨(List.replicate 1000 () ++ List.replicate 1000 ()) ++ List.replicate 500 (),
           3000, some 2500, 3, [1000, 1000, 500]⟩ := by
    intro f
    rw [show f + 3 = (f + 2) + 1 by omega,
        offsetLoop_cont _ _ _ _ _ _ apiTwentyFiveHundred_step1,
        show f + 2 = (f + 1) + 1 by omega,
        offsetLoop_cont _ _ _ _ _ _ apiTwentyFiveHundred_step2,
        offsetLoop_stop _ _ _ _ _ _ apiTwentyFiveHundred_step3]
  have h10 := hloop 7
  rw [show (7 : Nat) + 3 = 10 from rfl] at h10
  rw [query_iterative, show min 1000 1000 = 1000 from rfl, h10]
  norm_num

/-- C2, counterexample.  With the 1000-record cap, a ceiling of 2500 and an
API that has 5000 records available (so every page request can be filled),
`query_iterative` does issue exactly 3 page requests but the third page
retrieves 1000 records, not 500: every request asks for the full batch
size, so the retrieval totals 3000, not 2500. -/
theorem C2_cex :
    (query_iterative apiFiveThousand (some 2500) 1000 10).requests = 3
    ∧ ¬ (query_iterative apiFiveThousand (some 2500) 1000 10).pageSizes
        = [1000, 1000, 500] := by
  rw [apiFiveThousand_run]
  refine ⟨rfl, ?_⟩
  intro h
  simp at h

/-- C2, amended.  With the 1000-record cap and a ceiling of 2500 the engine
issues exactly 3 page requests, each asking for 1000 records; the 1000,
1000, 500 split arises only when exactly 2500 records are available (the
API fills the third request with the 500 remaining records); when at least
3000 records are available the third page retrieves 1000 and the run ends
with 3000 records, overshooting the ceiling. -/
theorem C2_thm :
    ((query_iterative apiTwentyFiveHundred (some 2500) 1000 10).requests = 3
     ∧ (query_iterative apiTwentyFiveHundred (some 2500) 1000 10).pageSizes
        = [1000, 1000, 500]
     ∧ (query_iterative apiTwentyFiveHundred (some 2500) 1000 10).retrieved = 2500)
    ∧ ((query_iterative apiFiveThousand (some 2500) 1000 10).requests = 3
     ∧ (query_iterative apiFiveThousand (some 2500) 1000 10).pageSizes
        = [1000, 1000, 1000]
     ∧ (query_iterative apiFiveThousand (some 2500) 1000 10).retrieved = 3000) := by
  rw [apiTwentyFiveHundred_run, apiFiveThousand_run]
  exact ⟨⟨rfl, rfl, rfl⟩, ⟨rfl, rfl, rfl⟩⟩

/-- C3: if a page fetch fails mid-pagination (here: on the third request of
a run that would otherwise continue), both pagination engines stop and
return exactly the records accumulated from the pages fetched before the
failure, with the retrieved count matching; no exception reaches the caller
(the result is an ordinary value, built inside the `except`/`break` arm). -/
theorem C3_thm :
    (∀ (α : Type) (fetch : Nat → Nat → Except String (OPage α)) (bs : Nat)
       (p1 p2 : List α) (tc tc2 : Nat) (e : String) (f : Nat),
      0 < bs → bs ≤ 1000 →
      fetch bs 0 = .ok ⟨p1, tc⟩ →
      fetch bs bs = .ok ⟨p2, tc2⟩ →
      fetch bs (bs + bs) = .error e →
      p1.length = bs → p2.length = bs →
      bs + bs < tc →
      (query_iterative fetch none bs (f + 3)).data = p1 ++ p2
      ∧ (query_iterative fetch none bs (f + 3)).retrieved = bs + bs
      ∧ (query_iterative fetch none bs (f + 3)).requests = 3)
    ∧ (∀ (α : Type) (fetch : String → Except String (CPage α))
       (p1 p2 : List α) (tc tc2 : Nat) (c1 c2 e : String) (f : Nat),
      p1.isEmpty = false → p2.isEmpty = false →
      c1.isEmpty = false → c2.isEmpty = false →
      fetch "*" = .ok ⟨p1, tc, some c1⟩ →
      fetch c1 = .ok ⟨p2, tc2, some c2⟩ →
      fetch c2 = .error e →
      p1.length + p2.length < tc →
      (fetch_all_with_cursor fetch none (f + 3)).data = p1 ++ p2
      ∧ (fetch_all_with_cursor fetch none (f + 3)).retrieved = p1.length + p2.length
      ∧ (fetch_all_with_cursor fetch none (f + 3)).requests = 3) := by
  constructor
  · intro α fetch bs p1 p2 tc tc2 e f hbs hbs1000 hf1 hf2 hf3 hp1 hp2 htc
    have hmin : min bs 1000 = bs := by omega
    have hne1 : p1.isEmpty = false := length_pos_isEmpty_false p1 (by omega)
    have hne2 : p2.isEmpty = false := length_pos_isEmpty_false p2 (by omega)
    have t1 : offsetStep fetch none bs ⟨[], 0, none, 0, []⟩
        = (⟨[] ++ p1, 0 + bs, some (effTarget none none tc), 0 + 1, [] ++ [p1.length]⟩, true) :=
      offsetStep_cont fetch none bs ⟨[], 0, none, 0, []⟩ p1 tc hf1 hne1
        (by simp [effTarget, optTruthy]; omega) (by simp [optTruthy]) (by omega)
    have t2 : offsetStep fetch none bs
        ⟨[] ++ p1, 0 + bs, some (effTarget none none tc), 0 + 1, [] ++ [p1.length]⟩
        = (⟨([] ++ p1) ++ p2, 0 + bs + bs, some (effTarget none (some (effTarget none none tc)) tc2),
            0 + 1 + 1, ([] ++ [p1.length]) ++ [p2.length]⟩, true) :=
      offsetStep_cont fetch none bs _ p2 tc2 (by simpa using hf2) hne2
        (by simp [effTarget, optTruthy]; omega) (by simp [optTruthy]) (by omega)
    have t3 : offsetStep fetch none bs
        ⟨([] ++ p1) ++ p2, 0 + bs + bs, some (effTarget none (some (effTarget none none tc)) tc2),
          0 + 1 + 1, ([] ++ [p1.length]) ++ [p2.length]⟩
        = (⟨([] ++ p1) ++ p2, 0 + bs + bs, some (effTarget none (some (effTarget none none tc)) tc2),
            0 + 1 + 1 + 1, ([] ++ [p1.length]) ++ [p2.length]⟩, false) :=
      offsetStep_error fetch none bs _ e (by simpa using hf3)
    have hloop : offsetLoop fetch none bs (f + 3) ⟨[], 0, none, 0, []⟩
        = ⟨([] ++ p1) ++ p2, 0 + bs + bs, some (effTarget none (some (effTarget none none tc)) tc2),
           0 + 1 + 1 + 1, ([] ++ [p1.length]) ++ [p2.length]⟩ := by
      rw [show f + 3 = (f + 2) + 1 by omega, offsetLoop_cont _ _ _ _ _ _ t1,
          show f + 2 = (f + 1) + 1 by omega, offsetLoop_cont _ _ _ _ _ _ t2,
          offsetLoop_stop _ _ _ _ _ _ t3]
    refine ⟨?_, ?_, ?_⟩ <;>
      rw [query_iterative, hmin, hloop] <;>
      simp [hp1, hp2]
  · intro α fetch p1 p2 tc tc2 c1 c2 e f hne1 hne2 hc1 hc2 hf1 hf2 hf3 htc
    have hp1pos : 0 < p1.length := by
      cases p1 with
      | nil => simp at hne1
      | cons x xs => simp
    have t1 : cursorStep fetch none ⟨[], "*", none, 0⟩
        = (⟨[] ++ p1, (some c1).getD "", some (effTarget none none tc), 0 + 1⟩, true) :=
      cursorStep_cont fetch none ⟨[], "*", none, 0⟩ p1 tc (some c1) hf1 hne1
        (by simp [effTarget, optTruthy]; omega) (by simp [cursorTruthy, hc1])
    have t2 : cursorStep fetch none
        ⟨[] ++ p1, (some c1).getD "", some (effTarget none none tc), 0 + 1⟩
        = (⟨([] ++ p1) ++ p2, (some c2).getD "",
            some (effTarget none (some (effTarget none none tc)) tc2), 0 + 1 + 1⟩, true) :=
      cursorStep_cont fetch none _ p2 tc2 (some c2) (by simpa using hf2) hne2
        (by simp [effTarget, optTruthy]; omega) (by simp [cursorTruthy, hc2])
    have t3 : cursorStep fetch none
        ⟨([] ++ p1) ++ p2, (some c2).getD "",
          some (effTarget none (some (effTarget none none tc)) tc2), 0 + 1 + 1⟩
        = (⟨([] ++ p1) ++ p2, (some c2).getD "",
            some (effTarget none (some (effTarget none none tc)) tc2), 0 + 1 + 1 + 1⟩, false) :=
      cursorStep_error fetch none _ e (by simpa using hf3)
    have hloop : cursorLoop fetch none (f + 3) ⟨[], "*", none, 0⟩
        = ⟨([] ++ p1) ++ p2, (some c2).getD "",
           some (effTarget none (some (effTarget none none tc)) tc2), 0 + 1 + 1 + 1⟩ := by
      rw [show f + 3 = (f + 2) + 1 by omega, cursorLoop_cont _ _ _ _ _ t1,
          show f + 2 = (f + 1) + 1 by omega, cursorLoop_cont _ _ _ _ _ t2,
          cursorLoop_stop _ _ _ _ _ t3]
    refine ⟨?_, ?_, ?_⟩ <;>
      rw [fetch_all_with_cursor, hloop] <;>
      simp

/-- C3, witness: a 9-record retrieval whose third page request fails,
in offset mode (batch size 2) and in cursor mode, returns exactly the
4 records of the first two pages. -/
theorem C3_wit :
    ((query_iterative apiFailsAtPage3 none 2 (0 + 3)).data = [1, 2] ++ [3, 4]
     ∧ (query_iterative apiFailsAtPage3 none 2 (0 + 3)).retrieved = 2 + 2
     ∧ (query_iterative apiFailsAtPage3 none 2 (0 + 3)).requests = 3)
    ∧ ((fetch_all_with_cursor curFailsAtPage3 none (0 + 3)).data = [1, 2] ++ [3, 4]
     ∧ (fetch_all_with_cursor curFailsAtPage3 none (0 + 3)).retrieved
        = [1, 2].length + [3, 4].length
     ∧ (fetch_all_with_cursor curFailsAtPage3 none (0 + 3)).requests = 3) :=
  ⟨C3_thm.1 Nat apiFailsAtPage3 2 [1, 2] [3, 4] 9 9 "network error" 0
    (by decide) (by decide) rfl rfl rfl rfl rfl (by decide),
   C3_thm.2 Nat curFailsAtPage3 [1, 2] [3, 4] 9 9 "c1" "c2" "network error" 0
    rfl rfl rfl rfl rfl rfl rfl (by decide)⟩

/-- C5: after a successful page fetch, cursor-mode pagination continues
if and only if the returned page is non-empty AND the accumulated count is
still below the effective target (the stored total, i.e.
`min(totalAvailable, ceiling)` fixed by the first page) AND the response
carries a truthy continuation token — equivalently, it stops exactly when
the page is empty, or the token is absent, or the target is reached; in
particular a missing token stops the run even below `totalAvailable`. -/
theorem C5_thm : ∀ (α : Type) (fetch : String → Except String (CPage α))
    (mr : Option Nat) (s : CurState α) (page : CPage α),
    fetch s.cursor = .ok page →
    ((cursorStep fetch mr s).2 = true ↔
      (page.results.isEmpty = false
       ∧ s.allResults.length + page.results.length
           < effTarget mr s.totalCount page.count
       ∧ cursorTruthy page.nextCursor = true)) := by
  intro α fetch mr s page hf
  rcases page with ⟨res, ct, nc⟩
  by_cases hemp : res.isEmpty
  · rw [cursorStep_empty fetch mr s res ct nc hf hemp]
    simp [hemp]
  · have hemp2 : res.isEmpty = false := by simpa using hemp
    by_cases h1 : effTarget mr s.totalCount ct ≤ s.allResults.length + res.length
    · rw [cursorStep_stopTarget fetch mr s res ct nc hf hemp2 h1]
      simp
      omega
    · by_cases h2 : cursorTruthy nc = true
      · rw [cursorStep_cont fetch mr s res ct nc hf hemp2 (by omega) h2]
        simp [hemp2, h2]
        omega
      · have h2f : cursorTruthy nc = false := by
          cases hcc : cursorTruthy nc
          · rfl
          · exact absurd hcc h2
        rw [cursorStep_stopNoCursor fetch mr s res ct nc hf hemp2 (by omega) h2f]
        simp [h2f]

/-- C5, witness: a single 25-record page with no continuation token makes
the loop stop even though 1000 records are available. -/
theorem C5_wit :
    curTwentyFive "*" = .ok ⟨List.replicate 25 0, 1000, none⟩
    ∧ ((cursorStep curTwentyFive none (⟨[], "*", none, 0⟩ : CurState Nat)).2 = true ↔
        ((List.replicate 25 (0 : Nat)).isEmpty = false
         ∧ ([] : List Nat).length + (List.replicate 25 (0 : Nat)).length
             < effTarget none none 1000
         ∧ cursorTruthy none = true)) :=
  ⟨rfl, C5_thm Nat curTwentyFive none ⟨[], "*", none, 0⟩
    ⟨List.replicate 25 0, 1000, none⟩ rfl⟩

theorem offsetStep_zeroCeiling (fetch : Nat → Nat → Except String (OPage α))
    (bs : Nat) (s : OffState α) :
    offsetStep fetch (some 0) bs s = offsetStep fetch none bs s := by
  cases hf : fetch bs s.skip with
  | error e => simp [offsetStep, hf]
  | ok page => simp [offsetStep, hf, effTarget, optTruthy]

theorem offsetLoop_zeroCeiling (fetch : Nat → Nat → Except String (OPage α)) (bs : Nat) :
    ∀ (fuel : Nat) (s : OffState α),
      offsetLoop fetch (some 0) bs fuel s = offsetLoop fetch none bs fuel s := by
  intro fuel
  induction fuel with
  | zero => intro s; rfl
  | succ f ih =>
    intro s
    simp only [offsetLoop, offsetStep_zeroCeiling]
    rcases h : offsetStep fetch none bs s with ⟨s2, flag⟩
    cases flag
    · simp
    · simp [ih]

theorem cursorStep_zeroCeiling (fetch : String → Except String (CPage α)) (s : CurState α) :
    cursorStep fetch (some 0) s = cursorStep fetch none s := by
  cases hf : fetch s.cursor with
  | error e => simp [cursorStep, hf]
  | ok page => simp [cursorStep, hf, effTarget, optTruthy]

theorem cursorLoop_zeroCeiling (fetch : String → Except String (CPage α)) :
    ∀ (fuel : Nat) (s : CurState α),
      cursorLoop fetch (some 0) fuel s = cursorLoop fetch none fuel s := by
  intro fuel
  induction fuel with
  | zero => intro s; rfl
  | succ f ih =>
    intro s
    simp only [cursorLoop, cursorStep_zeroCeiling]
    rcases h : cursorStep fetch none s with ⟨s2, flag⟩
    cases flag
    · simp
    · simp [ih]

/-- C7, counterexample.  A ceiling of zero is falsy in Python
(`if max_results:`), so it is never applied: against a 3-record API,
`query_iterative` with `max_results = 0` accumulates and returns all
3 records instead of the empty result set the claim describes. -/
theorem C7_cex :
    (query_iterative apiThreeRecords (some 0) 1000 100).retrieved = 3
    ∧ ¬ ((query_iterative apiThreeRecords (some 0) 1000 100).retrieved = 0
         ∧ (query_iterative apiThreeRecords (some 0) 1000 100).data = []) := by
  decide

/-- C7, amended.  A record ceiling of zero is treated exactly like no
ceiling at all (Python truthiness of `max_results`): both retrieval
operations behave identically under `max_results = 0` and
`max_results = None`, retrieving up to `totalAvailable` rather than
returning an empty result set. -/
theorem C7_thm :
    (∀ (α : Type) (fetch : Nat → Nat → Except String (OPage α)) (bs0 fuel : Nat),
      query_iterative fetch (some 0) bs0 fuel = query_iterative fetch none bs0 fuel)
    ∧ (∀ (α : Type) (fetch : String → Except String (CPage α)) (fuel : Nat),
      fetch_all_with_cursor fetch (some 0) fuel = fetch_all_with_cursor fetch none fuel) := by
  constructor
  · intro α fetch bs0 fuel
    simp [query_iterative, offsetLoop_zeroCeiling]
  · intro α fetch fuel
    simp [fetch_all_with_cursor, cursorLoop_zeroCeiling]

theorem cleanValue_shape (dom : PShape) (v : PVal) :
    cleanValue dom v = .vnull ∨ shapeMatchV dom (cleanValue dom v) := by
  cases dom with
  | list =>
    cases v with
    | vlist xs =>
      cases xs with
      | nil => left; rfl
      | cons x t =>
        right
        exact ⟨cleanNestedList (x :: t), rfl⟩
    | vnull => left; rfl
    | vstr s => left; rfl
    | vint n => left; rfl
    | vbool b => left; rfl
    | vdict kvs => left; rfl
  | dict =>
    cases v with
    | vdict kvs =>
      cases kvs with
      | nil => left; rfl
      | cons kv t =>
        right
        exact ⟨cleanNestedKVs (kv :: t), rfl⟩
    | vnull => left; rfl
    | vstr s => left; rfl
    | vint n => left; rfl
    | vbool b => left; rfl
    | vlist xs => left; rfl
  | primitive =>
    cases v with
    | vnull => left; rfl
    | vlist xs => left; rfl
    | vdict kvs => left; rfl
    | vint n => right; exact ⟨rfl, rfl, rfl⟩
    | vbool b => right; exact ⟨rfl, rfl, rfl⟩
    | vstr s =>
      by_cases hs : s.isEmpty
      · left
        simp [cleanValue, isListV, isDictV, isEmptyStr, hs]
      · right
        have hs2 : s.isEmpty = false := by simpa using hs
        simp [cleanValue, isListV, isDictV, isEmptyStr, hs2, shapeMatchV]

theorem rawShapeIs_false_clean (dom : PShape) (v : PVal)
    (h : rawShapeIs dom v = false) : cleanValue dom v = .vnull := by
  cases dom with
  | list =>
    cases v with
    | vlist xs =>
      cases xs with
      | nil => rfl
      | cons x t => simp [rawShapeIs, isNonemptyList] at h
    | vnull => rfl
    | vstr s => rfl
    | vint n => rfl
    | vbool b => rfl
    | vdict kvs => rfl
  | dict =>
    cases v with
    | vdict kvs =>
      cases kvs with
      | nil => rfl
      | cons kv t => simp [rawShapeIs, isNonemptyDict] at h
    | vnull => rfl
    | vstr s => rfl
    | vint n => rfl
    | vbool b => rfl
    | vlist xs => rfl
  | primitive =>
    cases v with
    | vnull => rfl
    | vlist xs => rfl
    | vdict kvs => rfl
    | vint n => simp [rawShapeIs, isListV, isDictV, isEmptyStr] at h
    | vbool b => simp [rawShapeIs, isListV, isDictV, isEmptyStr] at h
    | vstr s =>
      simp [rawShapeIs, isListV, isDictV, isEmptyStr] at h
      simp [cleanValue, isListV, isDictV, isEmptyStr, h]

theorem dominantShape_cases (l d p : Nat) :
    ((d < l ∧ p < l) → dominantShape l d p = .list)
    ∧ ((l < d ∧ p < d) → dominantShape l d p = .dict)
    ∧ ((l < p ∧ d < p) → dominantShape l d p = .primitive)
    ∧ ((0 < l ∧ d ≤ l ∧ p ≤ l) → dominantShape l d p = .list)
    ∧ ((l = 0 ∧ d = 0 ∧ p = 0) → dominantShape l d p = .primitive) := by
  unfold dominantShape maxShape
  refine ⟨?_, ?_, ?_, ?_, ?_⟩ <;> intro h
  · rw [if_pos (⟨by omega, by omega⟩ : d ≤ l ∧ p ≤ l)]
    show (if shapeCountOf l d p .list = 0 then PShape.primitive else .list) = .list
    rw [if_neg (by simp [shapeCountOf]; omega)]
  · rw [if_neg (show ¬ (d ≤ l ∧ p ≤ l) by omega), if_pos (show p ≤ d by omega)]
    show (if shapeCountOf l d p .dict = 0 then PShape.primitive else .dict) = .dict
    rw [if_neg (by simp [shapeCountOf]; omega)]
  · rw [if_neg (show ¬ (d ≤ l ∧ p ≤ l) by omega), if_neg (show ¬ p ≤ d by omega)]
    show (if shapeCountOf l d p .primitive = 0 then PShape.primitive else .primitive) = .primitive
    split <;> rfl
  · rw [if_pos (⟨by omega, by omega⟩ : d ≤ l ∧ p ≤ l)]
    show (if shapeCountOf l d p .list = 0 then PShape.primitive else .list) = .list
    rw [if_neg (by simp [shapeCountOf]; omega)]
  · rw [if_pos (⟨by omega, by omega⟩ : d ≤ l ∧ p ≤ l)]
    show (if shapeCountOf l d p .list = 0 then PShape.primitive else .list) = .primitive
    rw [if_pos (by simp [shapeCountOf]; omega)]

/-- C4, amended.  For every object column with at least one non-null value,
`clean_for_parquet` picks the shape with the plurality count, but exact
ties resolve in the fixed key order list, structured, scalar — the scalar
shape wins a tie only when all three counts are zero (then it is the
fallback); empty strings (and empty containers) count as absence; every
value not matching the dominant shape, including every empty string,
becomes null, and every surviving value conforms to the dominant shape. -/
theorem C4_thm (col : List PVal) (h : (nonNullVals col).isEmpty = false) :
    CleanColSpec col := by
  simp only [CleanColSpec]
  have hdc := dominantShape_cases (shapeCounts (nonNullVals col)).1
    (shapeCounts (nonNullVals col)).2.1 (shapeCounts (nonNullVals col)).2.2
  refine ⟨hdc.1, hdc.2.1, hdc.2.2.1, hdc.2.2.2.1, hdc.2.2.2.2, ?_, ?_, ?_⟩
  · simp [clean_for_parquet_col, h]
  · intro v hv
    simp only [clean_for_parquet_col, h, Bool.false_eq_true, if_false] at hv
    rcases List.mem_map.mp hv with ⟨u, hu, rfl⟩
    exact cleanValue_shape _ u
  · intro i hi h2 hraw
    have hout : clean_for_parquet_col col = col.map
        (cleanValue (dominantShape (shapeCounts (nonNullVals col)).1
          (shapeCounts (nonNullVals col)).2.1 (shapeCounts (nonNullVals col)).2.2)) := by
      simp [clean_for_parquet_col, h]
    simp only [hout, List.get_eq_getElem, List.getElem_map]
    rw [List.get_eq_getElem] at hraw
    exact rawShapeIs_false_clean _ _ hraw

/-- C4, counterexample.  A column with one scalar value and one list value
is an exact scalar/list tie; `max(type_counts, key=...)` keeps the first
key `list`, so the scalar is nulled and the list kept — the opposite of
the claimed tie-break in favor of the scalar shape. -/
theorem C4_cex :
    clean_for_parquet_col tieCol = [.vnull, .vlist [.vint 1]]
    ∧ ¬ clean_for_parquet_col tieCol = [.vstr "a", .vnull] := by
  constructor
  · rfl
  · intro h
    rw [show clean_for_parquet_col tieCol = [.vnull, .vlist [.vint 1]] from rfl] at h
    injection h with h1 h2
    exact PVal.noConfusion h1

/-- C4, witness: the amended specification instantiated on a column with
two list values and one scalar. -/
theorem C4_wit :
    (nonNullVals listMajorityCol).isEmpty = false ∧ CleanColSpec listMajorityCol :=
  ⟨rfl, C4_thm listMajorityCol rfl⟩

theorem contains_true_of_mem (a : String) (l : List String) (h : a ∈ l) :
    l.contains a = true := by
  rw [List.contains_iff_exists_mem_beq]
  exact ⟨a, h, by simp⟩

theorem contains_false_of_notMem (a : String) (l : List String) (h : ¬ a ∈ l) :
    l.contains a = false := by
  cases hc : l.contains a
  · rfl
  · rw [List.contains_iff_exists_mem_beq] at hc
    rcases hc with ⟨b, hb, hab⟩
    have heq : a = b := by simpa using hab
    exact absurd (heq ▸ hb) h

theorem isEmpty_false_of_ne_nil (l : List String) (h : l ≠ []) : l.isEmpty = false := by
  simp [List.isEmpty_iff]
  exact h

theorem facetErrorMsg_decompField (source facet : String) (valid : List String) :
    (facetErrorMsg source facet valid).data =
      ("Invalid facet '").data ++ facet.data ++
        ("' for " ++ source ++ ".\n" ++ facetSuggestLine facet valid ++ "Valid facets: "
          ++ String.intercalate ", " ((sortStrings valid).take 15) ++ "...\n"
          ++ "Use 'describe " ++ source ++ "' to see all available facets.").data := by
  simp [facetErrorMsg, strData_append, List.append_assoc]

theorem facetErrorMsg_decompList (source facet : String) (valid : List String) :
    (facetErrorMsg source facet valid).data =
      ("Invalid facet '" ++ facet ++ "' for " ++ source ++ ".\n"
        ++ facetSuggestLine facet valid).data ++ ("Valid facets: ").data ++
        (String.intercalate ", " ((sortStrings valid).take 15) ++ "...\n"
          ++ "Use 'describe " ++ source ++ "' to see all available facets.").data := by
  simp [facetErrorMsg, strData_append, List.append_assoc]

theorem groupByErrorMsg_decompField (entity gf : String) (valid : List String) :
    (groupByErrorMsg entity gf valid).data =
      ("Invalid group_by field '").data ++ gf.data ++
        ("' for " ++ entity ++ ".\n" ++ groupBySuggestLine gf valid
          ++ "See https://docs.openalex.org/how-to-use-the-api/get-groups-of-entities for all valid fields.").data := by
  simp [groupByErrorMsg, strData_append, List.append_assoc]

theorem groupByErrorMsg_decompDoc (entity gf : String) (valid : List String) :
    (groupByErrorMsg entity gf valid).data =
      ("Invalid group_by field '" ++ gf ++ "' for " ++ entity ++ ".\n"
        ++ groupBySuggestLine gf valid).data ++
        ("See https://docs.openalex.org/how-to-use-the-api/get-groups-of-entities for all valid fields.").data := by
  simp [groupByErrorMsg, strData_append, List.append_assoc]

/-- C6, amended.  With a non-empty cached valid-field set, a member field
never raises and an absent field always raises, with a message containing
the offending field name and at most 5 suggestions drawn from the valid
set that contain the offending field's prefix token; the dimensions
message additionally contains the truncated `Valid facets:` list, while
the OpenAlex message contains a documentation URL instead of any list of
the valid fields. -/
theorem C6_thm :
    (∀ (source facet : String) (valid : List String),
      facet ∈ valid → validate_facet source facet valid = .ok ())
    ∧ (∀ (source facet : String) (valid : List String),
      valid ≠ [] → ¬ facet ∈ valid →
      validate_facet source facet valid = .error (facetErrorMsg source facet valid)
      ∧ facet.data <:+: (facetErrorMsg source facet valid).data
      ∧ ("Valid facets: ").data <:+: (facetErrorMsg source facet valid).data
      ∧ (facetSuggestions facet valid).length ≤ 5
      ∧ (∀ g ∈ facetSuggestions facet valid,
          g ∈ valid ∧ containsStr (facetPrefixTok facet) g = true))
    ∧ (∀ (entity gf : String) (valid : List String),
      gf ∈ valid → validate_group_by_field entity gf valid = .ok ())
    ∧ (∀ (entity gf : String) (valid : List String),
      valid ≠ [] → ¬ gf ∈ valid →
      validate_group_by_field entity gf valid = .error (groupByErrorMsg entity gf valid)
      ∧ gf.data <:+: (groupByErrorMsg entity gf valid).data
      ∧ ("docs.openalex.org").data <:+: (groupByErrorMsg entity gf valid).data
      ∧ (groupBySuggestions gf valid).length ≤ 5
      ∧ (∀ g ∈ groupBySuggestions gf valid,
          g ∈ valid ∧ containsStr (groupFieldBase gf) g = true)) := by
  refine ⟨?_, ?_, ?_, ?_⟩
  · intro source facet valid hmem
    have hne : valid ≠ [] := by
      intro h
      rw [h] at hmem
      simp at hmem
    simp [validate_facet, isEmpty_false_of_ne_nil valid hne, contains_true_of_mem facet valid hmem]
    exact hmem
  · intro source facet valid hne hnm
    refine ⟨?_, ?_, ?_, ?_, ?_⟩
    · simp [validate_facet, isEmpty_false_of_ne_nil valid hne,
            contains_false_of_notMem facet valid hnm]
      exact hnm
    · rw [facetErrorMsg_decompField]
      exact List.infix_append _ _ _
    · rw [facetErrorMsg_decompList]
      exact List.infix_append _ _ _
    · exact List.length_take_le 5 _
    · intro g hg
      have hg2 := List.mem_of_mem_take hg
      have hg3 := List.mem_filter.mp hg2
      exact ⟨hg3.1, hg3.2⟩
  · intro entity gf valid hmem
    have hne : valid ≠ [] := by
      intro h
      rw [h] at hmem
      simp at hmem
    simp [validate_group_by_field, isEmpty_false_of_ne_nil valid hne,
          contains_true_of_mem gf valid hmem]
    exact hmem
  · intro entity gf valid hne hnm
    refine ⟨?_, ?_, ?_, ?_, ?_⟩
    · simp [validate_group_by_field, isEmpty_false_of_ne_nil valid hne,
            contains_false_of_notMem gf valid hnm]
      exact hnm
    · rw [groupByErrorMsg_decompField]
      exact List.infix_append _ _ _
    · rw [groupByErrorMsg_decompDoc]
      have hdoc : ("docs.openalex.org").data <:+:
          ("See https://docs.openalex.org/how-to-use-the-api/get-groups-of-entities for all valid fields.").data := by
        decide
      exact hdoc.trans (List.suffix_append _ _).isInfix
    · exact List.length_take_le 5 _
    · intro g hg
      have hg2 := List.mem_of_mem_take hg
      have hg3 := List.mem_filter.mp hg2
      exact ⟨hg3.1, hg3.2⟩

/-- C6, counterexample.  The OpenAlex validator's rejection message for
field `foo` against the cached set `{zzfield}` contains no valid field at
all (its only pointer is the documentation URL), so the claimed truncated
list of valid fields is absent from the message. -/
theorem C6_cex :
    isErrE (validate_group_by_field "works" "foo" ["zzfield"]) = true
    ∧ containsStr "zzfield"
        (errText (validate_group_by_field "works" "foo" ["zzfield"])) = false := by
  decide

/-- C6, witness: the amended validator contract instantiated on concrete
cached sets for both helpers. -/
theorem C6_wit :
    ("year" ∈ (["year", "research_orgs"] : List String)
     ∧ validate_facet "publications" "year" ["year", "research_orgs"] = .ok ())
    ∧ ((["year", "research_orgs"] : List String) ≠ []
     ∧ ¬ "citations" ∈ (["year", "research_orgs"] : List String)
     ∧ validate_facet "publications" "citations" ["year", "research_orgs"]
        = .error (facetErrorMsg "publications" "citations" ["year", "research_orgs"]))
    ∧ ("publication_year" ∈ (["publication_year", "oa_status"] : List String)
     ∧ validate_group_by_field "works" "publication_year"
        ["publication_year", "oa_status"] = .ok ())
    ∧ ((["publication_year", "oa_status"] : List String) ≠ []
     ∧ ¬ "grants.funder" ∈ (["publication_year", "oa_status"] : List String)
     ∧ validate_group_by_field "works" "grants.funder" ["publication_year", "oa_status"]
        = .error (groupByErrorMsg "works" "grants.funder" ["publication_year", "oa_status"])) :=
  ⟨⟨by decide, C6_thm.1 "publications" "year" ["year", "research_orgs"] (by decide)⟩,
   ⟨by decide, by decide,
    (C6_thm.2.1 "publications" "citations" ["year", "research_orgs"]
      (by decide) (by decide)).1⟩,
   ⟨by decide, C6_thm.2.2.1 "works" "publication_year"
      ["publication_year", "oa_status"] (by decide)⟩,
   ⟨by decide, by decide,
    (C6_thm.2.2.2 "works" "grants.funder" ["publication_year", "oa_status"]
      (by decide) (by decide)).1⟩⟩

/-- C8, counterexample.  When the first discovery attempt for a source
fails, the cache stays unpopulated (only successful discovery writes it),
so the very next validation for that source issues another discovery
call: two validations against an always-failing discovery perform 2
network calls, not the claimed at-most-1. -/
theorem C8_cex :
    (fetch_source_metadata failDiscover "publications"
      (fetch_source_metadata failDiscover "publications" emptyDimCache 0).1
      (fetch_source_metadata failDiscover "publications" emptyDimCache 0).2).2 = 2
    ∧ ¬ (fetch_source_metadata failDiscover "publications"
      (fetch_source_metadata failDiscover "publications" emptyDimCache 0).1
      (fetch_source_metadata failDiscover "publications" emptyDimCache 0).2).2 ≤ 1 := by
  decide

/-- C8, amended.  Validation performs a discovery call on every request
for a source until one succeeds: a cached source is answered without any
network call (for both helpers, a pure cache lookup), and once a
discovery call has succeeded the next validation performs no further
call; but a failed discovery is retried on the next validation rather
than being skipped for the remainder of the run. -/
theorem C8_thm :
    (∀ (discover : String → Except String DimMeta) (source : String)
       (c : DimCache) (n : Nat),
      (lookupSrc c.facets source).isSome = true →
      fetch_source_metadata discover source c n = (c, n))
    ∧ (∀ (discover : String → Except String DimMeta) (source : String)
       (c : DimCache) (n : Nat) (m : DimMeta),
      discover source = .ok m →
      fetch_source_metadata discover source
        (fetch_source_metadata discover source c n).1
        (fetch_source_metadata discover source c n).2
        = fetch_source_metadata discover source c n)
    ∧ (∀ (discover : String → Except String (List String)) (entity : String)
       (cache : List (String × List String)) (n : Nat) (fields : List String),
      lookupSrc cache entity = some fields →
      fetch_valid_group_by_fields discover entity cache n = (fields, cache, n))
    ∧ (∀ (discover : String → Except String (List String)) (entity : String)
       (cache : List (String × List String)) (n : Nat) (fields : List String),
      discover entity = .ok fields →
      fetch_valid_group_by_fields discover entity
        (fetch_valid_group_by_fields discover entity cache n).2.1
        (fetch_valid_group_by_fields discover entity cache n).2.2
        = fetch_valid_group_by_fields discover entity cache n) := by
  refine ⟨?_, ?_, ?_, ?_⟩
  · intro discover source c n h
    simp [fetch_source_metadata, h]
  · intro discover source c n m hok
    cases hc : lookupSrc c.facets source with
    | some v =>
      have h1 : fetch_source_metadata discover source c n = (c, n) := by
        simp [fetch_source_metadata, hc]
      rw [h1]
      simp [fetch_source_metadata, hc]
    | none =>
      have h1 : fetch_source_metadata discover source c n =
          (⟨(source, m.facets) :: c.facets, (source, m.filters) :: c.filters,
            (source, m.metrics) :: c.metrics⟩, n + 1) := by
        simp [fetch_source_metadata, hc, hok]
      rw [h1]
      simp [fetch_source_metadata, lookupSrc]
  · intro discover entity cache n fields h
    simp [fetch_valid_group_by_fields, h]
  · intro discover entity cache n fields hok
    cases hc : lookupSrc cache entity with
    | some v =>
      have h1 : fetch_valid_group_by_fields discover entity cache n = (v, cache, n) := by
        simp [fetch_valid_group_by_fields, hc]
      rw [h1]
      simp [fetch_valid_group_by_fields, hc]
    | none =>
      have h1 : fetch_valid_group_by_fields discover entity cache n =
          (fields, (entity, fields) :: cache, n + 1) := by
        simp [fetch_valid_group_by_fields, hc, hok]
      rw [h1]
      simp [fetch_valid_group_by_fields, lookupSrc]

/-- C8, witness: cache hits cost no call; after a successful discovery
the second fetch is the identity, for both helpers. -/
theorem C8_wit :
    ((lookupSrc (⟨[("publications", ["year"])], [], []⟩ : DimCache).facets
        "publications").isSome = true
     ∧ fetch_source_metadata failDiscover "publications"
        ⟨[("publications", ["year"])], [], []⟩ 1
        = (⟨[("publications", ["year"])], [], []⟩, 1))
    ∧ (okDiscover "publications" = .ok ⟨["year", "research_orgs"], ["year"], ["count"]⟩
     ∧ fetch_source_metadata okDiscover "publications"
        (fetch_source_metadata okDiscover "publications" emptyDimCache 0).1
        (fetch_source_metadata okDiscover "publications" emptyDimCache 0).2
        = fetch_source_metadata okDiscover "publications" emptyDimCache 0)
    ∧ (lookupSrc [("works", ["publication_year"])] "works" = some ["publication_year"]
     ∧ fetch_valid_group_by_fields failProbe "works" [("works", ["publication_year"])] 1
        = (["publication_year"], [("works", ["publication_year"])], 1))
    ∧ (okProbe "works" = .ok ["publication_year", "oa_status"]
     ∧ fetch_valid_group_by_fields okProbe "works"
        (fetch_valid_group_by_fields okProbe "works" [] 0).2.1
        (fetch_valid_group_by_fields okProbe "works" [] 0).2.2
        = fetch_valid_group_by_fields okProbe "works" [] 0) :=
  ⟨⟨by decide, C8_thm.1 failDiscover "publications"
      ⟨[("publications", ["year"])], [], []⟩ 1 (by decide)⟩,
   ⟨rfl, C8_thm.2.1 okDiscover "publications" emptyDimCache 0
      ⟨["year", "research_orgs"], ["year"], ["count"]⟩ rfl⟩,
   ⟨by decide, C8_thm.2.2.1 failProbe "works" [("works", ["publication_year"])] 1
      ["publication_year"] (by decide)⟩,
   ⟨rfl, C8_thm.2.2.2 okProbe "works" [] 0 ["publication_year", "oa_status"] rfl⟩⟩

/-- C9, counterexample.  `generate_filename` maps each non-alphanumeric
character of the term to an underscore instead of dropping it: the term
`a b` yields basename `publications_a_b_<ts>`, not the
`publications_ab_<ts>` that keeping only alphanumeric characters would
produce. -/
theorem C9_cex :
    generate_filename "publications" (some "a b") "20250101_000000"
      = "publications_a_b_20250101_000000"
    ∧ ¬ generate_filename "publications" (some "a b") "20250101_000000"
        = "publications" ++ "_" ++ specSanitize "a b" ++ "_" ++ "20250101_000000" := by
  decide

/-- C9, amended.  The basename is `{prefix}_{sanitized}_{timestamp}` where
the sanitized term has exactly one character per character of the first 30
of the caller-supplied term — kept when alphanumeric and replaced by an
underscore otherwise; with no term (or an empty one) the middle component
is omitted, giving `{prefix}_{timestamp}`. -/
theorem C9_thm : ∀ (p ts q : String),
    generate_filename p none ts = p ++ "_" ++ ts
    ∧ generate_filename p (some "") ts = p ++ "_" ++ ts
    ∧ (q.isEmpty = false →
        generate_filename p (some q) ts = p ++ "_" ++ sanitizeTerms q ++ "_" ++ ts)
    ∧ (sanitizeTerms q).data.length = min 30 q.data.length
    ∧ (∀ (i : Nat) (h1 : i < (sanitizeTerms q).data.length) (h2 : i < q.data.length),
        (sanitizeTerms q).data.get ⟨i, h1⟩ =
          (if (q.data.get ⟨i, h2⟩).isAlphanum then q.data.get ⟨i, h2⟩ else '_')) := by
  intro p ts q
  refine ⟨rfl, rfl, ?_, ?_, ?_⟩
  · intro h
    simp [generate_filename, h]
  · simp [sanitizeTerms]
  · intro i h1 h2
    simp [sanitizeTerms, List.get_eq_getElem, List.getElem_map, List.getElem_take]

/-- C9, witness: the amended filename contract instantiated on the term
`a b` (whose space becomes an underscore at index 1). -/
theorem C9_wit :
    ("a b".isEmpty = false
     ∧ generate_filename "p" (some "a b") "T"
        = "p" ++ "_" ++ sanitizeTerms "a b" ++ "_" ++ "T")
    ∧ (1 < (sanitizeTerms "a b").data.length ∧ 1 < "a b".data.length
     ∧ (sanitizeTerms "a b").data.get ⟨1, by decide⟩ =
        (if ("a b".data.get ⟨1, by decide⟩).isAlphanum
         then "a b".data.get ⟨1, by decide⟩ else '_')) :=
  ⟨⟨by decide, (C9_thm "p" "T" "a b").2.2.1 (by decide)⟩,
   ⟨by decide, by decide, (C9_thm "p" "T" "a b").2.2.2.2 1 (by decide) (by decide)⟩⟩

/-- C10: on the cursor/iterative search path, the entity list embedded in
the returned mapping is exactly the first `min 20 returned` retrieved
records (pointwise equal to the full data), while `returned` reports the
full accumulated total — so the count exceeds the embedded list's length
whenever more than 20 records were retrieved. -/
theorem C10_thm :
    (∀ (α : Type) (fetch : String → Except String (CPage α)) (mr : Option Nat) (fuel : Nat),
      (search_works_cursor_path fetch mr fuel).returned
        = (fetch_all_with_cursor fetch mr fuel).data.length
      ∧ (search_works_cursor_path fetch mr fuel).entities.length
        = min 20 (search_works_cursor_path fetch mr fuel).returned
      ∧ (∀ (i : Nat) (h1 : i < (search_works_cursor_path fetch mr fuel).entities.length)
          (h2 : i < (fetch_all_with_cursor fetch mr fuel).data.length),
          (search_works_cursor_path fetch mr fuel).entities.get ⟨i, h1⟩
            = (fetch_all_with_cursor fetch mr fuel).data.get ⟨i, h2⟩))
    ∧ (∀ (α : Type) (fetch : Nat → Nat → Except String (OPage α)) (mr : Option Nat)
        (bs0 fuel : Nat),
      (search_publications_iter_path fetch mr bs0 fuel).returned
        = (query_iterative fetch mr bs0 fuel).data.length
      ∧ (search_publications_iter_path fetch mr bs0 fuel).entities.length
        = min 20 (search_publications_iter_path fetch mr bs0 fuel).returned
      ∧ (∀ (i : Nat) (h1 : i < (search_publications_iter_path fetch mr bs0 fuel).entities.length)
          (h2 : i < (query_iterative fetch mr bs0 fuel).data.length),
          (search_publications_iter_path fetch mr bs0 fuel).entities.get ⟨i, h1⟩
            = (query_iterative fetch mr bs0 fuel).data.get ⟨i, h2⟩)) := by
  constructor
  · intro α fetch mr fuel
    refine ⟨rfl, ?_, ?_⟩
    · simp [search_works_cursor_path, List.length_take]
      rfl
    · intro i h1 h2
      simp [search_works_cursor_path, List.get_eq_getElem, List.getElem_take]
  · intro α fetch mr bs0 fuel
    refine ⟨rfl, ?_, ?_⟩
    · simp [search_publications_iter_path, List.length_take]
      rfl
    · intro i h1 h2
      simp [search_publications_iter_path, List.get_eq_getElem, List.getElem_take]

/-- C10, witness: a 25-record retrieval returns `returned = 25` with an
embedded list of only 20 entities, matching the full data pointwise. -/
theorem C10_wit :
    ((search_works_cursor_path curTwentyFive none 10).returned = 25
     ∧ (search_works_cursor_path curTwentyFive none 10).entities.length = 20)
    ∧ (0 < (search_works_cursor_path curTwentyFive none 10).entities.length
     ∧ 0 < (fetch_all_with_cursor curTwentyFive none 10).data.length
     ∧ (search_works_cursor_path curTwentyFive none 10).entities.get ⟨0, by decide⟩
        = (fetch_all_with_cursor curTwentyFive none 10).data.get ⟨0, by decide⟩)
    ∧ ((search_publications_iter_path apiTwentyFive none 100 10).returned = 25
     ∧ (search_publications_iter_path apiTwentyFive none 100 10).entities.length = 20) :=
  ⟨⟨by decide, by decide⟩,
   ⟨by decide, by decide, (C10_thm.1 Nat curTwentyFive none 10).2.2 0 (by decide) (by decide)⟩,
   ⟨by decide, by decide⟩⟩
